import Mathlib

/-!
Verification of the LEOS-RO simulation engine against its specification.

Shallow embedding of the core backend modules:
  * `backend/config.py`            — physical constants and run parameters
  * `backend/satellite/tle_generator.py` — TLE encoding, checksum, mean motion
  * `backend/satellite/orbit.py`   — altitude, drift correction, adaptive sampling
  * `backend/satellite/telemetry.py` — stateful telemetry synthesis
  * `backend/simulation/data_store.py` — in-memory result store
  * `dist/backend/simulation/engine.py` — the stepped simulation loop

Python floats are idealised as exact rationals (ℚ) where the code only does
field arithmetic and comparisons, and as reals (ℝ) where it takes square
roots or uses π.  Python string values are modelled as `List Char`.
Fallible code is modelled with `Option`/`Except`.
-/

namespace LeosRO

/-! ## Configuration constants (backend/config.py) -/

def EARTH_GM : ℚ := 398600.4418

def EARTH_RADIUS_KM : ℚ := 6371

def COLLISION_DISTANCE_KM : ℚ := 5

def ANOMALY_ALT_THRESHOLD_KM : ℚ := 300

def TIME_SPAN_HOURS : ℚ := 2

def TIME_STEP_SECONDS : ℚ := 60

/-! ## Python-style numeric/string formatting helpers

`pythonRound` is round-half-to-even, the rounding used by Python's `round`
and by `format` of floats (on the idealised decimal value).
`natChars`/`fmtNat`/`fmtFixed` model the `d` and `f` format specifiers for
the nonnegative values the generator produces.
-/

def pythonRound (q : ℚ) : ℤ :=
  if q - ⌊q⌋ < 1 / 2 then ⌊q⌋
  else if 1 / 2 < q - ⌊q⌋ then ⌊q⌋ + 1
  else if ⌊q⌋ % 2 = 0 then ⌊q⌋ else ⌊q⌋ + 1

def digitChar (d : ℕ) : Char := Char.ofNat (48 + d)

def natCharsAux : ℕ → ℕ → List Char
  | 0, _ => []
  | fuel + 1, n =>
    if n = 0 then [] else natCharsAux fuel (n / 10) ++ [digitChar (n % 10)]

def natChars (n : ℕ) : List Char :=
  if n = 0 then ['0'] else natCharsAux (n + 1) n

def padLeft (c : Char) (width : ℕ) (l : List Char) : List Char :=
  List.replicate (width - l.length) c ++ l

/-- Model of `f"{q:0{width}.{decimals}f}"` (`zero = true`) and
`f"{q:{width}.{decimals}f}"` (`zero = false`) for nonnegative `q`. -/
def fmtFixed (zero : Bool) (width decimals : ℕ) (q : ℚ) : List Char :=
  let n := (pythonRound (q * 10 ^ decimals)).toNat
  let ip := n / 10 ^ decimals
  let fp := n % 10 ^ decimals
  let core := natChars ip ++ ['.'] ++ padLeft '0' decimals (natChars fp)
  padLeft (if zero then '0' else ' ') width core

/-- Model of `f"{n:0{width}d}"` / `f"{n:{width}d}"` for naturals. -/
def fmtNat (zero : Bool) (width : ℕ) (n : ℕ) : List Char :=
  padLeft (if zero then '0' else ' ') width (natChars n)

/-! ## TLE generator (backend/satellite/tle_generator.py) -/

/-- Per-character contribution to the TLE checksum: digits count their value,
a minus sign counts 1, everything else 0. -/
def tleCharValue (c : Char) : ℕ :=
  if c.isDigit then c.toNat - 48 else if c = '-' then 1 else 0

/-- `checksum_tle_line`: sum of digit values plus one per '-' over the first
68 columns, mod 10, returned as the checksum digit character. -/
def checksum_tle_line (line : List Char) : Char :=
  digitChar ((((line.take 68).map tleCharValue).sum) % 10)

/-- The `line1_body` string built inside `build_tle_lines` (before the
checksum digit is appended). -/
def tle_line1_body (sat_num : ℕ) (classi : Char) (epoch_year : ℕ)
    (epoch_day_fraction : ℚ) (bstar_str : List Char) : List Char :=
  ['1', ' '] ++ fmtNat true 5 sat_num ++ [classi, ' ']
    ++ ['0', '0'] ++ fmtNat true 2 (epoch_year % 100)
    ++ fmtFixed true 12 8 epoch_day_fraction ++ [' ']
    ++ bstar_str ++ ("  00000-0  00000-0 0  999").toList

/-- The `line2_body` string built inside `build_tle_lines` (before the
checksum digit is appended). -/
def tle_line2_body (sat_num : ℕ)
    (inclination_deg raan_deg eccentricity argp_deg mean_anom_deg
      mean_motion_rev_day : ℚ) (rev_number : ℕ) : List Char :=
  ['2', ' '] ++ fmtNat true 5 sat_num ++ [' ']
    ++ fmtFixed false 8 4 inclination_deg ++ [' ']
    ++ fmtFixed false 8 4 raan_deg ++ [' ']
    ++ (fmtFixed false 0 7 eccentricity).drop 2 ++ [' ']
    ++ fmtFixed false 8 4 argp_deg ++ [' ']
    ++ fmtFixed false 8 4 mean_anom_deg ++ [' ']
    ++ fmtFixed false 11 8 mean_motion_rev_day ++ [' ']
    ++ fmtNat false 5 rev_number

/-- `build_tle_lines`: formats the element fields into the two TLE lines,
appending a checksum digit to each. -/
def build_tle_lines (sat_num : ℕ) (classi : Char) (epoch_year : ℕ)
    (epoch_day_fraction : ℚ) (bstar_str : List Char)
    (inclination_deg raan_deg eccentricity argp_deg mean_anom_deg
      mean_motion_rev_day : ℚ) (rev_number : ℕ) : List Char × List Char :=
  let line1_body :=
    tle_line1_body sat_num classi epoch_year epoch_day_fraction bstar_str
  let line1 := line1_body ++ [checksum_tle_line line1_body]
  let line2_body :=
    tle_line2_body sat_num inclination_deg raan_deg eccentricity argp_deg
      mean_anom_deg mean_motion_rev_day rev_number
  let line2 := line2_body ++ [checksum_tle_line line2_body]
  (line1, line2)

/-! ## Lemmas about the formatting helpers -/

theorem natCharsAux_length_le :
    ∀ (fuel n k : ℕ), n < 10 ^ k → (natCharsAux fuel n).length ≤ k := by
  intro fuel
  induction fuel with
  | zero => intro n k _; simp [natCharsAux]
  | succ f ih =>
    intro n k h
    by_cases hn : n = 0
    · simp [natCharsAux, hn]
    · have hk : k ≠ 0 := by
        rintro rfl
        simp only [pow_zero, Nat.lt_one_iff] at h
        exact hn h
      obtain ⟨k', rfl⟩ : ∃ k', k = k' + 1 := ⟨k - 1, by omega⟩
      have hdiv : n / 10 < 10 ^ k' := by
        have h10 : n < 10 ^ k' * 10 := by
          calc n < 10 ^ (k' + 1) := h
          _ = 10 ^ k' * 10 := by ring
        omega
      have := ih (n / 10) k' hdiv
      simp only [natCharsAux, hn, if_false, List.length_append, List.length_cons,
        List.length_nil]
      omega

theorem natChars_length_le (n k : ℕ) (hk : 0 < k) (h : n < 10 ^ k) :
    (natChars n).length ≤ k := by
  unfold natChars
  split
  · simpa using hk
  · exact natCharsAux_length_le _ n k h

theorem padLeft_length (c : Char) (w : ℕ) (l : List Char) :
    (padLeft c w l).length = max w l.length := by
  simp only [padLeft, List.length_append, List.length_replicate]
  omega

theorem padLeft_zero (c : Char) (l : List Char) : padLeft c 0 l = l := by
  simp [padLeft]

theorem fmtNat_length (z : Bool) (w n : ℕ) (hw : 0 < w) (h : n < 10 ^ w) :
    (fmtNat z w n).length = w := by
  unfold fmtNat
  rw [padLeft_length]
  have := natChars_length_le n w hw h
  omega

theorem pythonRound_nonneg (q : ℚ) (h : 0 ≤ q) : 0 ≤ pythonRound q := by
  unfold pythonRound
  have hf : (0 : ℤ) ≤ ⌊q⌋ := Int.floor_nonneg.2 h
  split_ifs <;> omega

theorem pythonRound_le_add_half (q : ℚ) : (pythonRound q : ℚ) ≤ q + 1 / 2 := by
  unfold pythonRound
  have hf : (⌊q⌋ : ℚ) ≤ q := Int.floor_le q
  split_ifs with h1 h2 h3
  · linarith
  · push_cast
    linarith
  · linarith
  · push_cast
    have : q - (⌊q⌋ : ℚ) = 1 / 2 := le_antisymm (not_lt.1 h2) (not_lt.1 h1)
    linarith

theorem pythonRound_natCast (n : ℕ) : pythonRound (n : ℚ) = n := by
  unfold pythonRound
  rw [Int.floor_natCast]
  simp

theorem pythonRound_toNat_lt (q : ℚ) (k d : ℕ) (h0 : 0 ≤ q)
    (hq : q < 10 ^ k - 1) :
    (pythonRound (q * 10 ^ d)).toNat < 10 ^ k * 10 ^ d := by
  have hd1 : (1 : ℚ) ≤ 10 ^ d := one_le_pow₀ (by norm_num)
  have h1 : (pythonRound (q * 10 ^ d) : ℚ) ≤ q * 10 ^ d + 1 / 2 :=
    pythonRound_le_add_half _
  have h2 : q * 10 ^ d + 1 / 2 < (10 ^ k : ℚ) * 10 ^ d := by nlinarith
  have h3 : (pythonRound (q * 10 ^ d) : ℚ) < ((10 ^ k * 10 ^ d : ℕ) : ℚ) := by
    push_cast
    linarith
  have h4 : pythonRound (q * 10 ^ d) < ((10 ^ k * 10 ^ d : ℕ) : ℤ) :=
    mod_cast h3
  have h5 : 0 < (10 ^ k * 10 ^ d : ℕ) := by positivity
  omega

theorem fmtFixed_length (z : Bool) (w d k : ℕ) (q : ℚ) (hd : 0 < d)
    (hk : 0 < k) (hwk : k + 1 + d ≤ w) (h0 : 0 ≤ q) (hq : q < 10 ^ k - 1) :
    (fmtFixed z w d q).length = w := by
  unfold fmtFixed
  have hnb := pythonRound_toNat_lt q k d h0 hq
  have hip : (pythonRound (q * 10 ^ d)).toNat / 10 ^ d < 10 ^ k := by
    rw [Nat.div_lt_iff_lt_mul (Nat.pos_pow_of_pos d (by norm_num))]
    omega
  have hfp : (pythonRound (q * 10 ^ d)).toNat % 10 ^ d < 10 ^ d :=
    Nat.mod_lt _ (Nat.pos_pow_of_pos d (by norm_num))
  have l1 := natChars_length_le _ k hk hip
  have l2 := natChars_length_le _ d hd hfp
  rw [padLeft_length]
  simp only [List.length_append, List.length_cons, List.length_nil]
  rw [padLeft_length]
  omega

theorem natChars_ne_nil (n : ℕ) : natChars n ≠ [] := by
  unfold natChars
  split
  · simp
  · rename_i hne
    obtain ⟨m, rfl⟩ : ∃ m, n = m + 1 := ⟨n - 1, by omega⟩
    simp [natCharsAux]

theorem natChars_length_pos (n : ℕ) : 0 < (natChars n).length :=
  List.length_pos.2 (natChars_ne_nil n)

theorem ecc_str_length (q : ℚ) (h0 : 0 ≤ q) (h1 : q ≤ 99 / 100) :
    ((fmtFixed false 0 7 q).drop 2).length = 7 := by
  unfold fmtFixed
  have hnb : (pythonRound (q * 10 ^ 7)).toNat < 10 ^ 1 * 10 ^ 7 :=
    pythonRound_toNat_lt q 1 7 h0 (by linarith)
  have hfp : (pythonRound (q * 10 ^ 7)).toNat % 10 ^ 7 < 10 ^ 7 :=
    Nat.mod_lt _ (by norm_num)
  have l2 := natChars_length_le _ 7 (by norm_num) hfp
  have l1 : (natChars ((pythonRound (q * 10 ^ 7)).toNat / 10 ^ 7)).length ≤ 1 := by
    apply natChars_length_le _ 1 (by norm_num)
    rw [Nat.div_lt_iff_lt_mul (by norm_num : (0:ℕ) < 10 ^ 7)]
    simpa using hnb
  have l1' := natChars_length_pos ((pythonRound (q * 10 ^ 7)).toNat / 10 ^ 7)
  rw [padLeft_zero]
  simp only [List.length_drop, List.length_append, List.length_cons,
    List.length_nil]
  rw [padLeft_length]
  omega

theorem fmtFixed_eval (z : Bool) (w d : ℕ) (q : ℚ) (n : ℕ)
    (h : q * 10 ^ d = (n : ℚ)) :
    fmtFixed z w d q =
      padLeft (if z then '0' else ' ') w
        (natChars (n / 10 ^ d) ++ ['.'] ++ padLeft '0' d (natChars (n % 10 ^ d))) := by
  unfold fmtFixed
  rw [h, pythonRound_natCast]
  simp

/-- Concrete element set used to test the encoder (a representative output of
the generator: 5-digit id, day fraction 100.5, 10-character drag term). -/
def sampleLines : List Char × List Char :=
  build_tle_lines 10000 'U' 2024 (201 / 2) (" 1.23456-4").toList (516 / 10)
    (2474627 / 10000) (6703 / 10000000) (130536 / 1000) (3250288 / 10000)
    (1507815 / 100000) 563

set_option maxRecDepth 20000 in
theorem sampleLines_eval :
    sampleLines =
      (("1 10000U 0024100.50000000  1.23456-4  00000-0  00000-0 0  9999").toList,
       ("2 10000  51.6000 247.4627 0006703 130.5360 325.0288 15.07815000   5637").toList) := by
  unfold sampleLines build_tle_lines tle_line1_body tle_line2_body
  rw [fmtFixed_eval true 12 8 (201 / 2) 10050000000 (by norm_num),
    fmtFixed_eval false 8 4 (516 / 10) 516000 (by norm_num),
    fmtFixed_eval false 8 4 (2474627 / 10000) 2474627 (by norm_num),
    fmtFixed_eval false 0 7 (6703 / 10000000) 6703 (by norm_num),
    fmtFixed_eval false 8 4 (130536 / 1000) 1305360 (by norm_num),
    fmtFixed_eval false 8 4 (3250288 / 10000) 3250288 (by norm_num),
    fmtFixed_eval false 11 8 (1507815 / 100000) 1507815000 (by norm_num)]
  decide

/-- C1 (counterexample): on a concrete element set the two encoded lines are
not both 69 characters long (they are 62 and 70). -/
theorem tle_line_lengths_not_69 :
    ¬ (sampleLines.1.length = 69 ∧ sampleLines.2.length = 69) := by
  rw [sampleLines_eval]
  decide

theorem tle_line1_body_length (sat_num : ℕ) (classi : Char) (epoch_year : ℕ)
    (dayF : ℚ) (bstar : List Char)
    (hsat : sat_num < 100000) (hb : bstar.length = 10)
    (hday0 : 0 ≤ dayF) (hday : dayF < 999) :
    (tle_line1_body sat_num classi epoch_year dayF bstar).length = 61 := by
  have hsatl := fmtNat_length true 5 sat_num (by norm_num) (by simpa using hsat)
  have hyyl := fmtNat_length true 2 (epoch_year % 100) (by norm_num)
    (by simpa using Nat.mod_lt epoch_year (show 0 < 100 by norm_num))
  have hdayl := fmtFixed_length true 12 8 3 dayF (by norm_num) (by norm_num)
    (by norm_num) hday0 (by norm_num; linarith)
  unfold tle_line1_body
  simp only [List.length_append, List.length_cons, List.length_nil, hsatl,
    hyyl, hdayl, hb]
  decide

theorem tle_line2_body_length (sat_num : ℕ)
    (inc raan ecc argp man mm : ℚ) (rev : ℕ)
    (hsat : sat_num < 100000)
    (hinc0 : 0 ≤ inc) (hinc : inc < 999)
    (hraan0 : 0 ≤ raan) (hraan : raan < 999)
    (hecc0 : 0 ≤ ecc) (hecc : ecc ≤ 99 / 100)
    (hargp0 : 0 ≤ argp) (hargp : argp < 999)
    (hman0 : 0 ≤ man) (hman : man < 999)
    (hmm0 : 0 ≤ mm) (hmm : mm < 99)
    (hrev : rev < 100000) :
    (tle_line2_body sat_num inc raan ecc argp man mm rev).length = 69 := by
  have hsatl := fmtNat_length true 5 sat_num (by norm_num) (by simpa using hsat)
  have hincl := fmtFixed_length false 8 4 3 inc (by norm_num) (by norm_num)
    (by norm_num) hinc0 (by norm_num; linarith)
  have hraanl := fmtFixed_length false 8 4 3 raan (by norm_num) (by norm_num)
    (by norm_num) hraan0 (by norm_num; linarith)
  have heccl := ecc_str_length ecc hecc0 hecc
  have hargpl := fmtFixed_length false 8 4 3 argp (by norm_num) (by norm_num)
    (by norm_num) hargp0 (by norm_num; linarith)
  have hmanl := fmtFixed_length false 8 4 3 man (by norm_num) (by norm_num)
    (by norm_num) hman0 (by norm_num; linarith)
  have hmml := fmtFixed_length false 11 8 2 mm (by norm_num) (by norm_num)
    (by norm_num) hmm0 (by norm_num; linarith)
  have hrevl := fmtNat_length false 5 rev (by norm_num) (by simpa using hrev)
  unfold tle_line2_body
  simp only [List.length_append, List.length_cons, List.length_nil, hsatl,
    hincl, hraanl, heccl, hargpl, hmanl, hmml, hrevl]

/-- C1 (amended): for every element set in the generator's ranges (5-digit
satellite id, day fraction below 999, a 10-character drag-term string, angles
below 999 degrees, eccentricity at most 0.99, mean motion below 99 rev/day,
revolution number below 100000), line 1 of `build_tle_lines` has exactly 62
characters (61 data columns + checksum digit) and line 2 has exactly 70
characters (69 data columns + checksum digit) — not 69 as claimed. -/
theorem tle_line_lengths (sat_num : ℕ) (classi : Char) (epoch_year : ℕ)
    (dayF : ℚ) (bstar : List Char) (inc raan ecc argp man mm : ℚ) (rev : ℕ)
    (hsat : sat_num < 100000) (hb : bstar.length = 10)
    (hday0 : 0 ≤ dayF) (hday : dayF < 999)
    (hinc0 : 0 ≤ inc) (hinc : inc < 999)
    (hraan0 : 0 ≤ raan) (hraan : raan < 999)
    (hecc0 : 0 ≤ ecc) (hecc : ecc ≤ 99 / 100)
    (hargp0 : 0 ≤ argp) (hargp : argp < 999)
    (hman0 : 0 ≤ man) (hman : man < 999)
    (hmm0 : 0 ≤ mm) (hmm : mm < 99)
    (hrev : rev < 100000) :
    (build_tle_lines sat_num classi epoch_year dayF bstar inc raan ecc argp
        man mm rev).1.length = 62 ∧
    (build_tle_lines sat_num classi epoch_year dayF bstar inc raan ecc argp
        man mm rev).2.length = 70 := by
  have h1 := tle_line1_body_length sat_num classi epoch_year dayF bstar hsat
    hb hday0 hday
  have h2 := tle_line2_body_length sat_num inc raan ecc argp man mm rev hsat
    hinc0 hinc hraan0 hraan hecc0 hecc hargp0 hargp hman0 hman hmm0 hmm hrev
  unfold build_tle_lines
  simp [h1, h2]

/-- C1 witness: the amended length theorem applied to the sample element set. -/
theorem tle_line_lengths_witness :
    sampleLines.1.length = 62 ∧ sampleLines.2.length = 70 :=
  tle_line_lengths 10000 'U' 2024 (201 / 2) (" 1.23456-4").toList (516 / 10)
    (2474627 / 10000) (6703 / 10000000) (130536 / 1000) (3250288 / 10000)
    (1507815 / 100000) 563 (by norm_num) (by decide) (by norm_num) (by norm_num)
    (by norm_num) (by norm_num) (by norm_num) (by norm_num) (by norm_num)
    (by norm_num) (by norm_num) (by norm_num) (by norm_num) (by norm_num)
    (by norm_num) (by norm_num) (by norm_num)

/-- C2 (counterexample): on a concrete element set, recomputing the checksum
over the first 68 columns of emitted line 1 does not reproduce its final
digit (the line is only 62 characters, so columns 0–67 include the appended
digit itself). -/
theorem tle_checksum_recompute_fails_line1 :
    ¬ sampleLines.1.getLast? = some (checksum_tle_line sampleLines.1) := by
  rw [sampleLines_eval]
  decide

/-- C2 (amended): each emitted line ends with the checksum of its own data
columns — the line with its final digit removed.  For line 2 (70 characters,
69 data columns) this coincides with recomputing the checksum over the first
68 columns of the emitted line, but for line 1 (62 characters) the first 68
columns of the emitted line include the appended digit itself, so only the
dropLast form holds there. -/
theorem tle_checksum_digits (sat_num : ℕ) (classi : Char) (epoch_year : ℕ)
    (dayF : ℚ) (bstar : List Char) (inc raan ecc argp man mm : ℚ) (rev : ℕ)
    (hsat : sat_num < 100000) (hb : bstar.length = 10)
    (hday0 : 0 ≤ dayF) (hday : dayF < 999)
    (hinc0 : 0 ≤ inc) (hinc : inc < 999)
    (hraan0 : 0 ≤ raan) (hraan : raan < 999)
    (hecc0 : 0 ≤ ecc) (hecc : ecc ≤ 99 / 100)
    (hargp0 : 0 ≤ argp) (hargp : argp < 999)
    (hman0 : 0 ≤ man) (hman : man < 999)
    (hmm0 : 0 ≤ mm) (hmm : mm < 99)
    (hrev : rev < 100000) :
    (build_tle_lines sat_num classi epoch_year dayF bstar inc raan ecc argp
        man mm rev).1.getLast? =
      some (checksum_tle_line
        (build_tle_lines sat_num classi epoch_year dayF bstar inc raan ecc
          argp man mm rev).1.dropLast) ∧
    (build_tle_lines sat_num classi epoch_year dayF bstar inc raan ecc argp
        man mm rev).2.getLast? =
      some (checksum_tle_line
        ((build_tle_lines sat_num classi epoch_year dayF bstar inc raan ecc
          argp man mm rev).2.take 68)) := by
  have h2 := tle_line2_body_length sat_num inc raan ecc argp man mm rev hsat
    hinc0 hinc hraan0 hraan hecc0 hecc hargp0 hargp hman0 hman hmm0 hmm hrev
  unfold build_tle_lines
  refine ⟨?_, ?_⟩
  · simp only [List.getLast?_concat, List.dropLast_concat]
  · simp only [List.getLast?_concat]
    have ht : ((tle_line2_body sat_num inc raan ecc argp man mm rev ++
        [checksum_tle_line (tle_line2_body sat_num inc raan ecc argp man mm
          rev)]).take 68) =
        (tle_line2_body sat_num inc raan ecc argp man mm rev).take 68 :=
      List.take_append_of_le_length (by omega)
    rw [ht]
    unfold checksum_tle_line
    rw [List.take_take, min_self]

/-- C2 witness: the amended checksum theorem applied to the sample element
set. -/
theorem tle_checksum_digits_witness :
    sampleLines.1.getLast? = some (checksum_tle_line sampleLines.1.dropLast) ∧
    sampleLines.2.getLast? = some (checksum_tle_line (sampleLines.2.take 68)) :=
  tle_checksum_digits 10000 'U' 2024 (201 / 2) (" 1.23456-4").toList
    (516 / 10) (2474627 / 10000) (6703 / 10000000) (130536 / 1000)
    (3250288 / 10000) (1507815 / 100000) 563 (by norm_num) (by decide)
    (by norm_num) (by norm_num) (by norm_num) (by norm_num) (by norm_num)
    (by norm_num) (by norm_num) (by norm_num) (by norm_num) (by norm_num)
    (by norm_num) (by norm_num) (by norm_num) (by norm_num) (by norm_num)

/-! ## Mean motion (backend/satellite/tle_generator.py, calc_mean_motion)

`calc_mean_motion` computes `86400 / (2π sqrt(a³/GM))` with
`a = EARTH_RADIUS_KM + alt_km`.  The Python code raises for `a ≤ 0`
(`math.sqrt` domain error for `a < 0`, `ZeroDivisionError` for `a = 0`),
modelled here as `none`. -/

noncomputable def calc_mean_motion (alt_km : ℚ) : Option ℝ :=
  if EARTH_RADIUS_KM + alt_km ≤ 0 then none
  else
    some (86400 /
      (2 * Real.pi *
        Real.sqrt (((EARTH_RADIUS_KM + alt_km : ℚ) : ℝ) ^ 3 / (EARTH_GM : ℝ))))

/-- C8: for every altitude at or below −earth_radius_km, `calc_mean_motion`
fails (math-domain / zero-division error, the spec's ConfigurationError)
instead of returning a numeric result. -/
theorem calc_mean_motion_fails_nonphysical (alt_km : ℚ)
    (h : alt_km ≤ -EARTH_RADIUS_KM) : calc_mean_motion alt_km = none := by
  unfold calc_mean_motion
  rw [if_pos (by linarith)]

/-- C8 witness: the failure theorem applied at altitude −6371 km. -/
theorem calc_mean_motion_fails_nonphysical_witness :
    (-6371 : ℚ) ≤ -EARTH_RADIUS_KM ∧ calc_mean_motion (-6371) = none :=
  ⟨by norm_num [EARTH_RADIUS_KM],
    calc_mean_motion_fails_nonphysical (-6371) (by norm_num [EARTH_RADIUS_KM])⟩

theorem calc_mean_motion_550_bounds :
    (calc_mean_motion 550).elim False
      fun r => 15.07 < r ∧ r < 15.09 := by
  unfold calc_mean_motion
  rw [if_neg (by norm_num [EARTH_RADIUS_KM])]
  simp only [Option.elim_some]
  have hX : ((EARTH_RADIUS_KM + 550 : ℚ) : ℝ) ^ 3 / (EARTH_GM : ℝ) =
      331517567961 / 398600.4418 := by
    norm_num [EARTH_RADIUS_KM, EARTH_GM]
  rw [hX]
  have hs1 : Real.sqrt (331517567961 / 398600.4418) < 911.98 := by
    rw [Real.sqrt_lt' (by norm_num)]
    norm_num
  have hs2 : (911.97 : ℝ) < Real.sqrt (331517567961 / 398600.4418) := by
    rw [Real.lt_sqrt (by norm_num)]
    norm_num
  have hpi1 := Real.pi_gt_d6
  have hpi2 := Real.pi_lt_d6
  have hs0 : (0 : ℝ) < Real.sqrt (331517567961 / 398600.4418) := by linarith
  have hD1 : (5730 : ℝ) <
      2 * Real.pi * Real.sqrt (331517567961 / 398600.4418) := by nlinarith
  have hD2 : 2 * Real.pi * Real.sqrt (331517567961 / 398600.4418) <
      (5730.3 : ℝ) := by nlinarith
  have hD0 : (0 : ℝ) <
      2 * Real.pi * Real.sqrt (331517567961 / 398600.4418) := by linarith
  constructor
  · rw [lt_div_iff hD0]
    nlinarith
  · rw [div_lt_iff hD0]
    nlinarith

/-- C5 (counterexample): `calc_mean_motion 550` returns a value, and that
value is not within 0.05 of 15.30 (it is ≈ 15.078). -/
theorem calc_mean_motion_550_not_near_15_30 :
    (calc_mean_motion 550).elim False
      fun r => ¬ |r - 15.30| ≤ 0.05 := by
  have h := calc_mean_motion_550_bounds
  cases hv : calc_mean_motion 550 with
  | none => rw [hv] at h; exact h
  | some r =>
    rw [hv] at h
    simp only [Option.elim_some] at h ⊢
    rw [abs_le]
    push_neg
    intro hcontra
    norm_num at hcontra h
    linarith [h.2]

/-- C5 (amended): `calc_mean_motion 550`, with GM = 398600.4418 km³/s² and
earth radius = 6371 km, returns a value within 0.05 of 15.08 rev/day
(the true Keplerian value ≈ 15.078, not 15.30). -/
theorem calc_mean_motion_550_near_15_08 :
    (calc_mean_motion 550).elim False
      fun r => |r - 15.08| < 0.05 := by
  have h := calc_mean_motion_550_bounds
  cases hv : calc_mean_motion 550 with
  | none => rw [hv] at h; exact h
  | some r =>
    rw [hv] at h
    simp only [Option.elim_some] at h ⊢
    rw [abs_lt]
    norm_num at h ⊢
    constructor <;> linarith [h.1, h.2]

/-! ## Orbit calculations (backend/satellite/orbit.py) -/

/-- `calculate_altitude`: norm of the position vector minus the Earth
radius. -/
noncomputable def calculate_altitude (p : ℝ × ℝ × ℝ) : ℝ :=
  Real.sqrt (p.1 ^ 2 + p.2.1 ^ 2 + p.2.2 ^ 2) - ((EARTH_RADIUS_KM : ℚ) : ℝ)

/-- `fix_altitude`: rescale the position radially to the target radius; the
division by the current radius is guarded by `r > 0`, and a zero-magnitude
position is returned unchanged (after logging an error). -/
noncomputable def fix_altitude (position : ℝ × ℝ × ℝ)
    (target_altitude_km : ℝ) : ℝ × ℝ × ℝ :=
  let r := Real.sqrt (position.1 ^ 2 + position.2.1 ^ 2 + position.2.2 ^ 2)
  let target_r := ((EARTH_RADIUS_KM : ℚ) : ℝ) + target_altitude_km
  if 0 < r then
    (position.1 * (target_r / r), position.2.1 * (target_r / r),
      position.2.2 * (target_r / r))
  else position

/-- C10: `fix_altitude` is total: the zero vector takes the unguarded branch
and is returned unchanged, and every nonzero position is rescaled by
`target_radius / current_radius`; the division is only reached under the
`r > 0` guard. -/
theorem fix_altitude_guarded :
    (∀ t : ℝ, fix_altitude (0, 0, 0) t = (0, 0, 0)) ∧
    (∀ px py pz t : ℝ, ¬ (px = 0 ∧ py = 0 ∧ pz = 0) →
      fix_altitude (px, py, pz) t =
        (px * ((((EARTH_RADIUS_KM : ℚ) : ℝ) + t) /
            Real.sqrt (px ^ 2 + py ^ 2 + pz ^ 2)),
          py * ((((EARTH_RADIUS_KM : ℚ) : ℝ) + t) /
            Real.sqrt (px ^ 2 + py ^ 2 + pz ^ 2)),
          pz * ((((EARTH_RADIUS_KM : ℚ) : ℝ) + t) /
            Real.sqrt (px ^ 2 + py ^ 2 + pz ^ 2)))) := by
  constructor
  · intro t
    unfold fix_altitude
    norm_num
  · intro px py pz t hp
    have hs : 0 < px ^ 2 + py ^ 2 + pz ^ 2 := by
      rcases not_and_or.1 hp with hx | hyz
      · have h1 : 0 < px ^ 2 :=
          lt_of_le_of_ne (sq_nonneg px) (Ne.symm (pow_ne_zero 2 hx))
        nlinarith [sq_nonneg py, sq_nonneg pz]
      · rcases not_and_or.1 hyz with hy | hz
        · have h1 : 0 < py ^ 2 :=
            lt_of_le_of_ne (sq_nonneg py) (Ne.symm (pow_ne_zero 2 hy))
          nlinarith [sq_nonneg px, sq_nonneg pz]
        · have h1 : 0 < pz ^ 2 :=
            lt_of_le_of_ne (sq_nonneg pz) (Ne.symm (pow_ne_zero 2 hz))
          nlinarith [sq_nonneg px, sq_nonneg py]
    have hr : 0 < Real.sqrt (px ^ 2 + py ^ 2 + pz ^ 2) := Real.sqrt_pos.2 hs
    unfold fix_altitude
    rw [if_pos hr]

/-- C10 witness: the totality theorem applied to the nonzero position
(3, 4, 0) with target altitude 550 km. -/
theorem fix_altitude_guarded_witness :
    ¬ ((3 : ℝ) = 0 ∧ (4 : ℝ) = 0 ∧ (0 : ℝ) = 0) ∧
    fix_altitude (3, 4, 0) 550 =
      ((3 : ℝ) * ((((EARTH_RADIUS_KM : ℚ) : ℝ) + 550) /
          Real.sqrt ((3 : ℝ) ^ 2 + (4 : ℝ) ^ 2 + (0 : ℝ) ^ 2)),
        (4 : ℝ) * ((((EARTH_RADIUS_KM : ℚ) : ℝ) + 550) /
          Real.sqrt ((3 : ℝ) ^ 2 + (4 : ℝ) ^ 2 + (0 : ℝ) ^ 2)),
        (0 : ℝ) * ((((EARTH_RADIUS_KM : ℚ) : ℝ) + 550) /
          Real.sqrt ((3 : ℝ) ^ 2 + (4 : ℝ) ^ 2 + (0 : ℝ) ^ 2))) :=
  ⟨by norm_num, fix_altitude_guarded.2 3 4 0 550 (by norm_num)⟩

/-! ## Adaptive sampling (backend/satellite/orbit.py, generate_orbit_points)

The step-size selection performed at the top of `generate_orbit_points`:
start from the base step, snap to exactly `min_points`/`max_points` when the
raw count falls outside the bounds, then shrink further to keep at least 180
points per orbital period. -/

/-- The first step adjustment of `generate_orbit_points`: snap to exactly
`min_points` / `max_points` when `duration / step` falls outside them. -/
def chooseStep1 (duration step_seconds : ℚ) (min_points max_points : ℕ) : ℚ :=
  if duration / step_seconds < (min_points : ℚ) then
    duration / (min_points : ℚ)
  else if (max_points : ℚ) < duration / step_seconds then
    duration / (max_points : ℚ)
  else step_seconds

def chooseStepSeconds (orbital_period duration step_seconds : ℚ)
    (min_points max_points : ℕ) : ℚ :=
  if orbital_period / chooseStep1 duration step_seconds min_points max_points
      < 180 then orbital_period / 180
  else chooseStep1 duration step_seconds min_points max_points

/-- The sample instants of the `while current_time <= end_time` loop of
`generate_orbit_points`, in closed form: `k * step` for every `k` with
`k * step ≤ duration`. -/
def generate_orbit_points_times (orbital_period duration step_seconds : ℚ)
    (min_points max_points : ℕ) : List ℚ :=
  (List.range
      (⌊duration / chooseStepSeconds orbital_period duration step_seconds
        min_points max_points⌋.toNat + 1)).map
    fun k : ℕ =>
      (k : ℚ) *
        chooseStepSeconds orbital_period duration step_seconds min_points
          max_points

/-- `generate_orbit_points`: propagate the satellite at each sample instant
(the propagation itself is the trusted external primitive). -/
def generate_orbit_points {α : Type} (propagate : ℚ → α)
    (orbital_period duration step_seconds : ℚ)
    (min_points max_points : ℕ) : List α :=
  (generate_orbit_points_times orbital_period duration step_seconds
    min_points max_points).map propagate

/-- C4 (counterexample): with period 5400 s, span 3600 s, base step 1 s,
min_points 100, max_points 2000, the sampler returns 2001 points —
more than max_points. -/
theorem generate_orbit_points_exceeds_max :
    ¬ (generate_orbit_points (fun t => t) 5400 3600 1 100 2000).length ≤
      2000 := by
  have hstep : chooseStepSeconds 5400 3600 1 100 2000 = 9 / 5 := by
    unfold chooseStepSeconds chooseStep1
    norm_num
  have hfloor : ⌊(3600 : ℚ) / (9 / 5)⌋ = ((2000 : ℕ) : ℤ) := by
    have h : (3600 : ℚ) / (9 / 5) = ((2000 : ℕ) : ℚ) := by norm_num
    rw [h, Int.floor_natCast]
  have hlen : (generate_orbit_points (fun t => t) 5400 3600 1 100 2000).length
      = 2001 := by
    unfold generate_orbit_points generate_orbit_points_times
    rw [hstep]
    simp only [List.length_map, List.length_range, hfloor]
    omega
  omega

/-- C4 (amended): for periods in [5400 s, 7200 s], spans in [3600 s, 86400 s],
every positive base step, and bounds 0 < min_points ≤ max_points, the sampler
returns at least min_points points and at least 180 points per orbital
period; the returned count is bounded by max(max_points, ⌈180·span/period⌉)+1
— it can exceed max_points (by one when snapping to max_points, and further
when the 180-points-per-orbit density floor shrinks the step). -/
theorem generate_orbit_points_bounds {α : Type} (propagate : ℚ → α)
    (P D b : ℚ) (m M : ℕ)
    (hP1 : 5400 ≤ P) (hP2 : P ≤ 7200) (hD1 : 3600 ≤ D) (hD2 : D ≤ 86400)
    (hb : 0 < b) (hm : 0 < m) (hmM : m ≤ M) :
    m ≤ (generate_orbit_points propagate P D b m M).length ∧
    ((generate_orbit_points propagate P D b m M).length : ℤ) ≤
      max (M : ℤ) ⌈(180 * D / P : ℚ)⌉ + 1 ∧
    180 ≤ P / chooseStepSeconds P D b m M := by
  have hP0 : (0 : ℚ) < P := by linarith
  have hD0 : (0 : ℚ) < D := by linarith
  have hm0 : (0 : ℚ) < (m : ℚ) := by exact_mod_cast hm
  have hM0 : (0 : ℚ) < (M : ℚ) := by
    have h : (m : ℚ) ≤ (M : ℚ) := by exact_mod_cast hmM
    linarith
  unfold generate_orbit_points generate_orbit_points_times
  simp only [List.length_map, List.length_range]
  set s1 := chooseStep1 D b m M with hs1def
  have hs1 : 0 < s1 ∧ (m : ℚ) ≤ D / s1 ∧ D / s1 ≤ (M : ℚ) := by
    rw [hs1def]
    unfold chooseStep1
    split_ifs with h1 h2
    · have he : D / (D / (m : ℚ)) = (m : ℚ) := by field_simp
      exact ⟨by positivity, by rw [he], by rw [he]; exact_mod_cast hmM⟩
    · have he : D / (D / (M : ℚ)) = (M : ℚ) := by field_simp
      exact ⟨by positivity, by rw [he]; exact_mod_cast hmM, by rw [he]⟩
    · exact ⟨hb, not_lt.1 h1, not_lt.1 h2⟩
  obtain ⟨hs1p, hs1m, hs1M⟩ := hs1
  set s2 := chooseStepSeconds P D b m M with hs2def
  have hs2eq : s2 = if P / s1 < 180 then P / 180 else s1 := by
    rw [hs2def, hs1def]
    unfold chooseStepSeconds
    rfl
  have hs2p : 0 < s2 := by
    rw [hs2eq]
    split_ifs
    · positivity
    · exact hs1p
  have hs2le : s2 ≤ s1 := by
    rw [hs2eq]
    split_ifs with h
    · have hlt : P < 180 * s1 := by rwa [div_lt_iff hs1p] at h
      have : P / 180 < s1 := by
        rw [div_lt_iff (by norm_num : (0 : ℚ) < 180)]
        linarith
      linarith
    · exact le_refl _
  have hdens : 180 ≤ P / s2 := by
    rw [hs2eq]
    split_ifs with h
    · have he : P / (P / 180) = 180 := by field_simp
      rw [he]
    · exact not_lt.1 h
  have hub : D / s2 ≤ (M : ℚ) ∨ D / s2 = 180 * D / P := by
    rw [hs2eq]
    split_ifs with h
    · right
      rw [div_div_eq_mul_div]
      ring
    · exact Or.inl hs1M
  have hmono : D / s1 ≤ D / s2 := by
    rw [div_le_div_iff hs1p hs2p]
    exact mul_le_mul_of_nonneg_left hs2le hD0.le
  have hlb : (m : ℚ) ≤ D / s2 := le_trans hs1m hmono
  have hfl : (m : ℤ) ≤ ⌊D / s2⌋ := Int.le_floor.2 (by exact_mod_cast hlb)
  refine ⟨by omega, ?_, hdens⟩
  have hfu : ⌊D / s2⌋ ≤ max (M : ℤ) ⌈(180 * D / P : ℚ)⌉ := by
    rcases hub with h | h
    · have h1 : ⌊D / s2⌋ ≤ ⌊(M : ℚ)⌋ := Int.floor_le_floor h
      rw [Int.floor_natCast] at h1
      exact le_trans h1 (le_max_left _ _)
    · have h1 : ⌊D / s2⌋ ≤ ⌈(180 * D / P : ℚ)⌉ := by
        rw [h]
        exact le_trans (Int.floor_le_ceil _) (le_refl _)
      exact le_trans h1 (le_max_right _ _)
  omega

/-- C4 witness: the amended bounds theorem applied with period 5400 s, span
3600 s, base step 60 s, min_points 100, max_points 2000. -/
theorem generate_orbit_points_bounds_witness :
    (5400 : ℚ) ≤ 5400 ∧ (3600 : ℚ) ≤ 86400 ∧ (0 : ℚ) < 60 ∧ 0 < 100 ∧
      100 ≤ 2000 ∧
    (100 ≤ (generate_orbit_points (fun t => t) 5400 3600 60 100 2000).length ∧
      ((generate_orbit_points (fun t => t) 5400 3600 60 100
          2000).length : ℤ) ≤
        max (2000 : ℤ) ⌈(180 * 3600 / 5400 : ℚ)⌉ + 1 ∧
      180 ≤ 5400 / chooseStepSeconds 5400 3600 60 100 2000) :=
  ⟨by norm_num, by norm_num, by norm_num, by norm_num, by norm_num,
    generate_orbit_points_bounds (fun t => t) 5400 3600 60 100 2000
      (by norm_num) (by norm_num) (by norm_num) (by norm_num) (by norm_num)
      (by norm_num) (by norm_num)⟩

/-! ## Telemetry synthesis (backend/satellite/telemetry.py)

`generate_subsystem_telemetry` threads a per-satellite state dict.  The
orbit phase is stored here in units of π (the code stores `phase` with
`increment = 2π/(period/step)`, wraps mod 2π and compares against 0.7π and
1.3π; dividing everything by π > 0 preserves all comparisons exactly).
The `random.uniform` draws are passed in explicitly as `TelemetryDraws`.
Python's float `%` (sign following the divisor) is `qfmod`; `round(x, 1)`
is `roundTo1` (round-half-even, like Python's). -/

structure TelemetryState where
  battery : ℚ
  temperature : ℚ
  orbit_phase : ℚ
  in_eclipse : Bool
  last_eclipse_change : ℕ

structure TelemetryDraws where
  temp_jitter : ℚ
  yaw_draw : ℚ
  pitch_draw : ℚ
  roll_draw : ℚ

structure TelemetryOutput where
  battery : ℚ
  temperature : ℚ
  yaw_deg : ℚ
  pitch_deg : ℚ
  roll_deg : ℚ
  anomalies : List String

def qfmod (a b : ℚ) : ℚ := a - b * ⌊a / b⌋

def roundTo1 (q : ℚ) : ℚ := (pythonRound (q * 10) : ℚ) / 10

def generate_subsystem_telemetry (time_step_seconds : ℚ) (sat_name : String)
    (altitude_km : ℚ) (time_index : ℕ) (draws : TelemetryDraws)
    (state : TelemetryState) : TelemetryOutput × TelemetryState :=
  let base_period_seconds : ℚ := 90 * 60
  let nominal_altitude : ℚ := if sat_name = "CRTS1" then 550 else 530
  let altitude_factor := (altitude_km - nominal_altitude) / 100
  let orbit_period := base_period_seconds + altitude_factor * 2 * 60
  let phase_increment := 2 / (orbit_period / time_step_seconds)
  let orbit_phase := qfmod (state.orbit_phase + phase_increment) 2
  let in_eclipse : Bool := decide (7 / 10 ≤ orbit_phase ∧ orbit_phase ≤ 13 / 10)
  let hours_per_step := time_step_seconds / 3600
  let battery_change :=
    if 7 / 10 ≤ orbit_phase ∧ orbit_phase ≤ 13 / 10 then
      -2.5 * hours_per_step
    else -0.8 * hours_per_step
  let battery := max 5 (min 100 (state.battery + battery_change))
  let target_temp :=
    (if 7 / 10 ≤ orbit_phase ∧ orbit_phase ≤ 13 / 10 then (-20 : ℚ) else 35)
      + draws.temp_jitter
  let temp_change_rate := 0.01 * hours_per_step * 60
  let temperature :=
    state.temperature + (target_temp - state.temperature) * temp_change_rate
  let eclipse_change := state.in_eclipse != in_eclipse
  let stability_factor := min 1 (battery / 40)
  let yaw := roundTo1 (draws.yaw_draw / stability_factor)
  let pitch := roundTo1 (draws.pitch_draw / stability_factor)
  let roll := roundTo1 (draws.roll_draw / stability_factor)
  let anomalies : List String :=
    (if battery < 20 then ["LowBattery"] else [])
    ++ (if battery < 10 then ["CriticalBattery"] else [])
    ++ (if temperature > 50 then ["Overheat"] else [])
    ++ (if temperature < -40 then ["Overcool"] else [])
    ++ (if 5 < |pitch| ∨ 5 < |roll| then ["AttitudeError"] else [])
  let new_state : TelemetryState :=
    { battery := battery, temperature := temperature,
      orbit_phase := orbit_phase, in_eclipse := in_eclipse,
      last_eclipse_change :=
        if eclipse_change then time_index else state.last_eclipse_change }
  ({ battery := roundTo1 battery, temperature := roundTo1 temperature,
      yaw_deg := yaw, pitch_deg := pitch, roll_deg := roll,
      anomalies := anomalies }, new_state)

/-- The telemetry state the engine starts every satellite with
(dist/backend/simulation/engine.py, run_simulation). -/
def initTelemetryState : TelemetryState :=
  { battery := 80, temperature := 20, orbit_phase := 0, in_eclipse := false,
    last_eclipse_change := 0 }

/-- `n` telemetry steps for CRTS1 at its nominal altitude 550 km with the
default 60 s step, from the engine's initial state. -/
def simulateTelemetry (draws : ℕ → TelemetryDraws) : ℕ → TelemetryState
  | 0 => initTelemetryState
  | n + 1 =>
    (generate_subsystem_telemetry 60 "CRTS1" 550 n (draws n)
      (simulateTelemetry draws n)).2

theorem simulateTelemetry_closed (draws : ℕ → TelemetryDraws) :
    ∀ n, n ≤ 10 →
      (simulateTelemetry draws n).battery = 80 - n / 75 ∧
      (simulateTelemetry draws n).orbit_phase = n / 45 ∧
      (simulateTelemetry draws n).in_eclipse = false := by
  intro n
  induction n with
  | zero =>
    intro _
    refine ⟨?_, ?_, rfl⟩ <;> simp [simulateTelemetry, initTelemetryState]
  | succ k ih =>
    intro hk
    obtain ⟨hb, hp, -⟩ := ih (by omega)
    have hk9 : (k : ℚ) ≤ 9 := by exact_mod_cast (by omega : k ≤ 9)
    have hk0 : (0 : ℚ) ≤ (k : ℚ) := Nat.cast_nonneg k
    have hph : qfmod ((k : ℚ) / 45 + 1 / 45) 2 = ((k : ℚ) + 1) / 45 := by
      unfold qfmod
      have he : (k : ℚ) / 45 + 1 / 45 = ((k : ℚ) + 1) / 45 := by ring
      rw [he]
      have hfl : ⌊(((k : ℚ) + 1) / 45) / 2⌋ = 0 := by
        rw [Int.floor_eq_zero_iff, Set.mem_Ico]
        constructor
        · positivity
        · linarith
      rw [hfl]
      ring
    have hecl : ¬ ((7 : ℚ) / 10 ≤ ((k : ℚ) + 1) / 45 ∧
        ((k : ℚ) + 1) / 45 ≤ 13 / 10) := by
      rintro ⟨h1, -⟩
      linarith
    have hstep : simulateTelemetry draws (k + 1) =
        (generate_subsystem_telemetry 60 "CRTS1" 550 k (draws k)
          (simulateTelemetry draws k)).2 := rfl
    refine ⟨?_, ?_, ?_⟩
    · rw [hstep]
      unfold generate_subsystem_telemetry
      simp only [hp, hb]
      norm_num
      rw [hph, if_neg hecl, min_eq_right (by linarith), max_eq_right (by linarith)]
      ring
    · rw [hstep]
      unfold generate_subsystem_telemetry
      simp only [hp]
      norm_num
      rw [hph]
    · rw [hstep]
      unfold generate_subsystem_telemetry
      simp only [hp]
      norm_num
      rw [hph]
      intro h1
      linarith

/-- C7: (i) from the engine's initial state (battery 80), ten consecutive
60 s telemetry steps at nominal altitude are all SUNLIT and drain the
internal battery state by exactly 10·(0.8·60/3600) = 2/15 ≈ 0.1333
percentage points; (ii) each step changes the battery by
−2.5%·(step/3600) in eclipse and −0.8%·(step/3600) in sunlight, clamped to
[5, 100]; (iii) after any step, under any inputs, the battery lies in
[5, 100]. -/
theorem telemetry_battery_model :
    (∀ draws : ℕ → TelemetryDraws,
      (simulateTelemetry draws 10).battery = 80 - 2 / 15 ∧
      (List.range 10).map (fun k => (simulateTelemetry draws (k + 1)).in_eclipse)
        = List.replicate 10 false) ∧
    (∀ (step_s : ℚ) (name : String) (alt : ℚ) (i : ℕ) (d : TelemetryDraws)
        (s : TelemetryState),
      (generate_subsystem_telemetry step_s name alt i d s).2.battery =
        max 5 (min 100 (s.battery +
          (if (generate_subsystem_telemetry step_s name alt i d s).2.in_eclipse
            then -2.5 * (step_s / 3600) else -0.8 * (step_s / 3600)))) ∧
      5 ≤ (generate_subsystem_telemetry step_s name alt i d s).2.battery ∧
      (generate_subsystem_telemetry step_s name alt i d s).2.battery ≤ 100) := by
  constructor
  · intro draws
    constructor
    · have h := (simulateTelemetry_closed draws 10 (le_refl 10)).1
      rw [h]
      norm_num
    · rw [List.eq_replicate]
      refine ⟨by simp, ?_⟩
      intro b hb
      rw [List.mem_map] at hb
      obtain ⟨k, hk, rfl⟩ := hb
      rw [List.mem_range] at hk
      exact (simulateTelemetry_closed draws (k + 1) (by omega)).2.2
  · intro step_s name alt i d s
    unfold generate_subsystem_telemetry
    refine ⟨?_, ?_, ?_⟩
    · simp only [decide_eq_true_eq]
    · exact le_max_left _ _
    · exact max_le (by norm_num) (min_le_left _ _)

/-! ## Data store (backend/simulation/data_store.py)

The in-memory stores `_simulation_data` and `_orbit_data` are modelled as
association lists keyed by satellite name.  `dict.get` returning `None`
and an empty stored list are both falsy in Python, so both are modelled by
`(lookup name).getD []`. -/

/-- One full-orbit trajectory point as stored by the engine. -/
structure TrajPoint where
  position : ℝ × ℝ × ℝ
  velocity : ℝ × ℝ × ℝ
  altitude_km : ℝ
  velocity_kms : ℝ
  time : ℚ

/-- One stepped-simulation record as appended by `run_simulation`. -/
structure SimRecord where
  time : ℚ
  position : ℝ × ℝ × ℝ
  velocity : ℝ × ℝ × ℝ
  altitude_km : ℝ
  velocity_kms : ℝ
  collisions : List (String × ℝ)
  battery : ℚ
  temperature : ℚ
  orientation : ℚ × ℚ × ℚ
  anomalies : List String

structure DataStore where
  simulation_data : List (String × List SimRecord)
  orbit_data : List (String × List TrajPoint)

def emptyDataStore : DataStore := ⟨[], []⟩

/-- `get_satellite_data`: orbit trajectory if nonempty, else simulation
data if nonempty, else raises `ValueError` (modelled as `.error`). -/
def get_satellite_data (store : DataStore) (sat_name : String) :
    Except String (List TrajPoint ⊕ List SimRecord) :=
  match (store.orbit_data.lookup sat_name).getD [] with
  | a :: rest => .ok (.inl (a :: rest))
  | [] =>
    match (store.simulation_data.lookup sat_name).getD [] with
    | b :: rest => .ok (.inr (b :: rest))
    | [] => .error ("No orbit data available for " ++ sat_name)

/-- The telemetry summary dict returned by `get_latest_telemetry` on a hit
(the engine always writes every field, so the `.get` defaults never fire). -/
structure LatestTelemetry where
  battery : ℚ
  temperature : ℚ
  orientation : ℚ × ℚ × ℚ
  anomalies : List String
  altitude_km : ℝ
  velocity_kms : ℝ
  time : ℚ

/-- `get_latest_telemetry`: the last stored record's telemetry fields, or
the empty dict (modelled `none`) when no data exists — it logs a warning
and returns `{}` rather than raising.  (The function's `except` fallback,
which would return zeroed values with a `TelemetryUnavailable` tag, is
unreachable here: no operation in the body can fail.) -/
def get_latest_telemetry (store : DataStore) (sat_name : String) :
    Option LatestTelemetry :=
  match (store.simulation_data.lookup sat_name).getD [] with
  | [] => none
  | a :: rest =>
    let latest := (a :: rest).getLast (List.cons_ne_nil a rest)
    some ⟨latest.battery, latest.temperature, latest.orientation,
      latest.anomalies, latest.altitude_km, latest.velocity_kms, latest.time⟩

/-- C9 (counterexample): on an empty store, `get_satellite_data` does raise
an explicit no-data error, but `get_latest_telemetry` returns the empty
dict instead of raising — so not every reader raises on a miss. -/
theorem get_latest_telemetry_miss_returns_empty :
    get_latest_telemetry emptyDataStore "CRTS1" = none ∧
    get_satellite_data emptyDataStore "CRTS1" =
      .error ("No orbit data available for " ++ "CRTS1") :=
  ⟨rfl, rfl⟩

/-- C9 (amended): on a miss, `get_satellite_data` raises an explicit
no-data error naming the satellite, while `get_latest_telemetry` logs a
warning and returns the empty dict — it neither raises nor fabricates
telemetry values for the missing satellite. -/
theorem data_store_miss_behavior (store : DataStore) (name : String)
    (horb : (store.orbit_data.lookup name).getD [] = [])
    (hsim : (store.simulation_data.lookup name).getD [] = []) :
    get_satellite_data store name =
      .error ("No orbit data available for " ++ name) ∧
    get_latest_telemetry store name = none := by
  unfold get_satellite_data get_latest_telemetry
  rw [horb, hsim]
  simp

/-- C9 witness: the miss-behavior theorem applied to the empty store. -/
theorem data_store_miss_behavior_witness :
    ((emptyDataStore.orbit_data.lookup "BULLDOG").getD [] = [] ∧
      (emptyDataStore.simulation_data.lookup "BULLDOG").getD [] = []) ∧
    (get_satellite_data emptyDataStore "BULLDOG" =
        .error ("No orbit data available for " ++ "BULLDOG") ∧
      get_latest_telemetry emptyDataStore "BULLDOG" = none) :=
  ⟨⟨rfl, rfl⟩, data_store_miss_behavior emptyDataStore "BULLDOG" rfl rfl⟩

/-! ## The stepped simulation loop (dist/backend/simulation/engine.py,
run_simulation, lines 281–361)

The loop body is embedded concretely: per-tick position snapshot with drift
correction, pairwise collision scan, per-satellite telemetry with state
threading, and record assembly.  The two external calls that can raise at
run time are abstracted as `Except`-valued parameters:
  * `prop sn t` models `sat_objs[sn].at(st)` (skyfield propagation) plus the
    position/velocity extraction inside the first `try` block — a failure
    there is re-raised as `RuntimeError` and aborts the run;
  * `telem sn alt i state` models `generate_subsystem_telemetry` inside the
    second `try` block — a failure there is logged and that satellite's
    record for that tick is skipped. -/

def exceptIsOk {ε α : Type} : Except ε α → Bool
  | .ok _ => true
  | .error _ => false

/-- `check_collision` (orbit.py): the distance when below the threshold,
`None` otherwise. -/
noncomputable def check_collision (pa pb : ℝ × ℝ × ℝ) (threshold : ℝ) :
    Option ℝ :=
  let dist := Real.sqrt ((pa.1 - pb.1) ^ 2 + (pa.2.1 - pb.2.1) ^ 2 +
    (pa.2.2 - pb.2.2) ^ 2)
  if dist < threshold then some dist else none

/-- All unordered pairs in the `for a in range(n): for b in range(a+1, n)`
order. -/
def pairsOf {α : Type} : List α → List (α × α)
  | [] => []
  | x :: xs => (xs.map fun y => (x, y)) ++ pairsOf xs

noncomputable def collisionsAt
    (snapshot : List (String × ((ℝ × ℝ × ℝ) × (ℝ × ℝ × ℝ)))) :
    List (String × String × ℝ) :=
  (pairsOf snapshot).filterMap fun p =>
    match check_collision p.1.2.1 p.2.2.1 ((COLLISION_DISTANCE_KM : ℚ) : ℝ) with
    | some d => some (p.1.1, p.2.1, d)
    | none => none

/-- Drift correction as applied per tick: rescale only when the altitude is
more than 50 km away from the configured target. -/
noncomputable def correctedPos (pos : ℝ × ℝ × ℝ) (expected : ℚ) :
    ℝ × ℝ × ℝ :=
  if 50 < |calculate_altitude pos - ((expected : ℚ) : ℝ)| then
    fix_altitude pos ((expected : ℚ) : ℝ)
  else pos

/-- The first per-satellite loop of a tick: propagate every satellite and
apply drift correction; any failure is re-raised and aborts the run. -/
noncomputable def positionPhase
    (prop : String → ℚ → Except String ((ℝ × ℝ × ℝ) × (ℝ × ℝ × ℝ)))
    (expectedAlt : String → ℚ) (t : ℚ) :
    List String → Except String (List (String × ((ℝ × ℝ × ℝ) × (ℝ × ℝ × ℝ))))
  | [] => .ok []
  | sn :: rest =>
    match prop sn t with
    | .error e =>
      .error ("Failed to calculate position for " ++ sn ++ ": " ++ e)
    | .ok pv =>
      match positionPhase prop expectedAlt t rest with
      | .error e => .error e
      | .ok acc => .ok ((sn, (correctedPos pv.1 (expectedAlt sn), pv.2)) :: acc)

/-- Assembly of one satellite's record for one tick. -/
noncomputable def buildSimRecord (t : ℚ) (pos vel : ℝ × ℝ × ℝ)
    (cols : List (String × String × ℝ)) (sn : String)
    (out : TelemetryOutput) : SimRecord :=
  let alt := calculate_altitude pos
  { time := t, position := pos, velocity := vel, altitude_km := alt,
    velocity_kms := Real.sqrt (vel.1 ^ 2 + vel.2.1 ^ 2 + vel.2.2 ^ 2),
    collisions := cols.filterMap fun c =>
      if c.1 = sn then some (c.2.1, c.2.2)
      else if c.2.1 = sn then some (c.1, c.2.2) else none,
    battery := out.battery, temperature := out.temperature,
    orientation := (out.yaw_deg, out.pitch_deg, out.roll_deg),
    anomalies := out.anomalies ++
      (if alt < ((ANOMALY_ALT_THRESHOLD_KM : ℚ) : ℝ) then
        ["LowAltitude<300.0"] else []) }

/-- The second per-satellite loop of a tick: telemetry generation and record
assembly; a failure is caught, that satellite's record is skipped, and its
telemetry state is left unchanged. -/
noncomputable def telemetryPhase
    (telem : String → ℝ → ℕ → TelemetryState →
      Except String (TelemetryOutput × TelemetryState))
    (snapshot : List (String × ((ℝ × ℝ × ℝ) × (ℝ × ℝ × ℝ))))
    (cols : List (String × String × ℝ)) (i : ℕ) (t : ℚ) :
    List String → (String → TelemetryState) →
      List (String × SimRecord) × (String → TelemetryState)
  | [], states => ([], states)
  | sn :: rest, states =>
    let pv := (snapshot.lookup sn).getD ((0, 0, 0), (0, 0, 0))
    match telem sn (calculate_altitude pv.1) i (states sn) with
    | .error _ => telemetryPhase telem snapshot cols i t rest states
    | .ok (out, st2) =>
      let res :=
        telemetryPhase telem snapshot cols i t rest
          (Function.update states sn st2)
      ((sn, buildSimRecord t pv.1 pv.2 cols sn out) :: res.1, res.2)

/-- The mutable per-run state: each satellite's accumulated record list
(`sim_data`) and telemetry state (`telemetry_state`). -/
structure SimAcc where
  simData : String → List SimRecord
  tstates : String → TelemetryState

def initSimAcc : SimAcc :=
  { simData := fun _ => [], tstates := fun _ => initTelemetryState }

/-- One tick of the stepped loop. -/
noncomputable def simStep (sats : List String) (expectedAlt : String → ℚ)
    (prop : String → ℚ → Except String ((ℝ × ℝ × ℝ) × (ℝ × ℝ × ℝ)))
    (telem : String → ℝ → ℕ → TelemetryState →
      Except String (TelemetryOutput × TelemetryState))
    (i : ℕ) (t : ℚ) (acc : SimAcc) : Except String SimAcc :=
  match positionPhase prop expectedAlt t sats with
  | .error e => .error e
  | .ok snapshot =>
    let cols := collisionsAt snapshot
    let res := telemetryPhase telem snapshot cols i t sats acc.tstates
    .ok { simData := fun s =>
            acc.simData s ++
              (match res.1.lookup s with
                | some r => [r]
                | none => []),
          tstates := res.2 }

noncomputable def runLoopAux (sats : List String) (expectedAlt : String → ℚ)
    (prop : String → ℚ → Except String ((ℝ × ℝ × ℝ) × (ℝ × ℝ × ℝ)))
    (telem : String → ℝ → ℕ → TelemetryState →
      Except String (TelemetryOutput × TelemetryState)) :
    List (ℕ × ℚ) → SimAcc → Except String SimAcc
  | [], acc => .ok acc
  | p :: rest, acc =>
    match simStep sats expectedAlt prop telem p.1 p.2 acc with
    | .error e => .error e
    | .ok acc2 => runLoopAux sats expectedAlt prop telem rest acc2

/-- The whole stepped run (`for i, t in enumerate(time_list)`). -/
noncomputable def run_simulation_loop (sats : List String)
    (expectedAlt : String → ℚ)
    (prop : String → ℚ → Except String ((ℝ × ℝ × ℝ) × (ℝ × ℝ × ℝ)))
    (telem : String → ℝ → ℕ → TelemetryState →
      Except String (TelemetryOutput × TelemetryState))
    (ticks : List ℚ) : Except String SimAcc :=
  runLoopAux sats expectedAlt prop telem ticks.enum initSimAcc

/-- The engine's time grid `[now, now + span]` at a fixed step, as elapsed
seconds: the closed form of the `while cur <= end` loop. -/
def build_time_list (span_seconds step_seconds : ℚ) : List ℚ :=
  (List.range (⌊span_seconds / step_seconds⌋.toNat + 1)).map
    fun k : ℕ => (k : ℚ) * step_seconds

theorem exceptIsOk_ok {ε α : Type} (a : α) :
    exceptIsOk (Except.ok a : Except ε α) = true := rfl

theorem exceptIsOk_error {ε α : Type} (e : ε) :
    exceptIsOk (Except.error e : Except ε α) = false := rfl

theorem exceptIsOk_eq_true_iff {ε α : Type} (x : Except ε α) :
    exceptIsOk x = true ↔ ∃ a, x = .ok a := by
  cases x <;> simp [exceptIsOk]

theorem positionPhase_isOk_iff
    (prop : String → ℚ → Except String ((ℝ × ℝ × ℝ) × (ℝ × ℝ × ℝ)))
    (expectedAlt : String → ℚ) (t : ℚ) :
    ∀ sats : List String,
      exceptIsOk (positionPhase prop expectedAlt t sats) = true ↔
        ∀ sn ∈ sats, exceptIsOk (prop sn t) = true := by
  intro sats
  induction sats with
  | nil => simp [positionPhase, exceptIsOk]
  | cons sn rest ih =>
    cases hp : prop sn t with
    | error e =>
      simp [positionPhase, hp, List.forall_mem_cons, exceptIsOk]
    | ok pv =>
      have hL : exceptIsOk (positionPhase prop expectedAlt t (sn :: rest)) =
          exceptIsOk (positionPhase prop expectedAlt t rest) := by
        simp only [positionPhase, hp]
        cases positionPhase prop expectedAlt t rest <;> rfl
      rw [hL, ih]
      simp [List.forall_mem_cons, hp, exceptIsOk]

/-- The snapshot the position phase produces when every propagation call
succeeds. -/
noncomputable def snapOf (expectedAlt : String → ℚ)
    (pv : String → (ℝ × ℝ × ℝ) × (ℝ × ℝ × ℝ)) (sats : List String) :
    List (String × ((ℝ × ℝ × ℝ) × (ℝ × ℝ × ℝ))) :=
  sats.map fun sn => (sn, (correctedPos (pv sn).1 (expectedAlt sn), (pv sn).2))

theorem positionPhase_ok_of
    (prop : String → ℚ → Except String ((ℝ × ℝ × ℝ) × (ℝ × ℝ × ℝ)))
    (expectedAlt : String → ℚ) (t : ℚ)
    (pv : String → (ℝ × ℝ × ℝ) × (ℝ × ℝ × ℝ)) :
    ∀ sats : List String, (∀ sn ∈ sats, prop sn t = .ok (pv sn)) →
      positionPhase prop expectedAlt t sats =
        .ok (snapOf expectedAlt pv sats) := by
  intro sats
  induction sats with
  | nil => intro _; rfl
  | cons sn rest ih =>
    intro h
    have hp := h sn (by simp)
    have hr := ih fun s hs => h s (by simp [hs])
    simp [positionPhase, hp, hr, snapOf]

theorem lookup_map_self {β : Type} (f : String → β) :
    ∀ (l : List String) (s : String), s ∈ l →
      (l.map fun sn => (sn, f sn)).lookup s = some (f s) := by
  intro l
  induction l with
  | nil => intro s hs; simp at hs
  | cons a rest ih =>
    intro s hs
    by_cases he : s = a
    · subst he
      simp [List.lookup]
    · have hs' : s ∈ rest := by
        rcases List.mem_cons.1 hs with h | h
        · exact absurd h he
        · exact h
      have hne : (s == a) = false := beq_false_of_ne he
      simp [List.lookup, hne, ih s hs']

theorem telemetryPhase_spec
    (telem : String → ℝ → ℕ → TelemetryState →
      Except String (TelemetryOutput × TelemetryState))
    (snapshot : List (String × ((ℝ × ℝ × ℝ) × (ℝ × ℝ × ℝ))))
    (cols : List (String × String × ℝ)) (i : ℕ) (t : ℚ) :
    ∀ (sats : List String) (states : String → TelemetryState), sats.Nodup →
      (∀ s, s ∉ sats →
        (telemetryPhase telem snapshot cols i t sats states).1.lookup s =
          none) ∧
      (∀ s ∈ sats,
        (telemetryPhase telem snapshot cols i t sats states).1.lookup s =
          match telem s
              (calculate_altitude
                ((snapshot.lookup s).getD ((0, 0, 0), (0, 0, 0))).1) i
              (states s) with
          | .ok (out, _) =>
            some (buildSimRecord t
              ((snapshot.lookup s).getD ((0, 0, 0), (0, 0, 0))).1
              ((snapshot.lookup s).getD ((0, 0, 0), (0, 0, 0))).2 cols s out)
          | .error _ => none) := by
  intro sats
  induction sats with
  | nil =>
    intro states _
    exact ⟨fun s _ => rfl, fun s hs => absurd hs (by simp)⟩
  | cons sn rest ih =>
    intro states hnd
    obtain ⟨hnm, hnd'⟩ := List.nodup_cons.1 hnd
    cases ht : telem sn
        (calculate_altitude
          ((snapshot.lookup sn).getD ((0, 0, 0), (0, 0, 0))).1) i
        (states sn) with
    | error e =>
      have hphase : telemetryPhase telem snapshot cols i t (sn :: rest) states
          = telemetryPhase telem snapshot cols i t rest states := by
        simp only [telemetryPhase, ht]
      constructor
      · intro s hs
        rw [hphase]
        exact (ih states hnd').1 s fun hmem => hs (by simp [hmem])
      · intro s hs
        rw [hphase]
        rcases List.mem_cons.1 hs with rfl | hmem
        · rw [(ih states hnd').1 s hnm, ht]
        · rw [(ih states hnd').2 s hmem]
    | ok outst =>
      obtain ⟨out, st2⟩ := outst
      have hphase : telemetryPhase telem snapshot cols i t (sn :: rest) states
          = ((sn, buildSimRecord t
                ((snapshot.lookup sn).getD ((0, 0, 0), (0, 0, 0))).1
                ((snapshot.lookup sn).getD ((0, 0, 0), (0, 0, 0))).2 cols sn
                out) ::
              (telemetryPhase telem snapshot cols i t rest
                (Function.update states sn st2)).1,
              (telemetryPhase telem snapshot cols i t rest
                (Function.update states sn st2)).2) := by
        simp only [telemetryPhase, ht]
      constructor
      · intro s hs
        have hsne : s ≠ sn := fun h => hs (by simp [h])
        have hne : (s == sn) = false := beq_false_of_ne hsne
        rw [hphase]
        simp only [List.lookup, hne]
        exact (ih (Function.update states sn st2) hnd').1 s
          fun hmem => hs (by simp [hmem])
      · intro s hs
        rcases List.mem_cons.1 hs with rfl | hmem
        · rw [hphase]
          simp only [List.lookup, beq_self_eq_true, ht]
        · have hsne : s ≠ sn := fun h => hnm (h ▸ hmem)
          have hne : (s == sn) = false := beq_false_of_ne hsne
          rw [hphase]
          simp only [List.lookup, hne]
          rw [(ih (Function.update states sn st2) hnd').2 s hmem,
            Function.update_noteq hsne]

theorem snapOf_lookup (expectedAlt : String → ℚ)
    (pv : String → (ℝ × ℝ × ℝ) × (ℝ × ℝ × ℝ)) (sats : List String)
    (s : String) (hs : s ∈ sats) :
    (snapOf expectedAlt pv sats).lookup s =
      some (correctedPos (pv s).1 (expectedAlt s), (pv s).2) :=
  lookup_map_self _ sats s hs

theorem simStep_isOk_iff (sats : List String) (expectedAlt : String → ℚ)
    (prop : String → ℚ → Except String ((ℝ × ℝ × ℝ) × (ℝ × ℝ × ℝ)))
    (telem : String → ℝ → ℕ → TelemetryState →
      Except String (TelemetryOutput × TelemetryState))
    (i : ℕ) (t : ℚ) (acc : SimAcc) :
    exceptIsOk (simStep sats expectedAlt prop telem i t acc) = true ↔
      ∀ sn ∈ sats, exceptIsOk (prop sn t) = true := by
  rw [← positionPhase_isOk_iff prop expectedAlt t sats]
  unfold simStep
  cases positionPhase prop expectedAlt t sats <;> rfl

theorem simStep_ok_spec (sats : List String) (expectedAlt : String → ℚ)
    (prop : String → ℚ → Except String ((ℝ × ℝ × ℝ) × (ℝ × ℝ × ℝ)))
    (telem : String → ℝ → ℕ → TelemetryState →
      Except String (TelemetryOutput × TelemetryState))
    (i : ℕ) (t : ℚ) (acc : SimAcc)
    (pv : String → (ℝ × ℝ × ℝ) × (ℝ × ℝ × ℝ))
    (hnd : sats.Nodup) (hprop : ∀ sn ∈ sats, prop sn t = .ok (pv sn)) :
    ∃ acc2, simStep sats expectedAlt prop telem i t acc = .ok acc2 ∧
      (∀ s, s ∉ sats → acc2.simData s = acc.simData s) ∧
      (∀ s ∈ sats,
        acc2.simData s = acc.simData s ++
          (match telem s
              (calculate_altitude (correctedPos (pv s).1 (expectedAlt s))) i
              (acc.tstates s) with
            | .ok (out, _) =>
              [buildSimRecord t (correctedPos (pv s).1 (expectedAlt s))
                (pv s).2 (collisionsAt (snapOf expectedAlt pv sats)) s out]
            | .error _ => [])) := by
  have hpos := positionPhase_ok_of prop expectedAlt t pv sats hprop
  have hstep : simStep sats expectedAlt prop telem i t acc =
      .ok { simData := fun s =>
              acc.simData s ++
                (match (telemetryPhase telem (snapOf expectedAlt pv sats)
                    (collisionsAt (snapOf expectedAlt pv sats)) i t sats
                    acc.tstates).1.lookup s with
                  | some r => [r]
                  | none => []),
            tstates := (telemetryPhase telem (snapOf expectedAlt pv sats)
              (collisionsAt (snapOf expectedAlt pv sats)) i t sats
              acc.tstates).2 } := by
    unfold simStep
    rw [hpos]
  refine ⟨_, hstep, ?_, ?_⟩
  · intro s hs
    have hnone := (telemetryPhase_spec telem (snapOf expectedAlt pv sats)
      (collisionsAt (snapOf expectedAlt pv sats)) i t sats acc.tstates hnd).1
      s hs
    simp only [hnone, List.append_nil]
  · intro s hs
    have hsome := (telemetryPhase_spec telem (snapOf expectedAlt pv sats)
      (collisionsAt (snapOf expectedAlt pv sats)) i t sats acc.tstates hnd).2
      s hs
    rw [snapOf_lookup expectedAlt pv sats s hs] at hsome
    simp only [Option.getD_some] at hsome
    simp only [hsome]
    cases telem s (calculate_altitude (correctedPos (pv s).1 (expectedAlt s)))
        i (acc.tstates s) with
    | error e => rfl
    | ok outst =>
      obtain ⟨out, st2⟩ := outst
      rfl

theorem runLoopAux_isOk_iff (sats : List String) (expectedAlt : String → ℚ)
    (prop : String → ℚ → Except String ((ℝ × ℝ × ℝ) × (ℝ × ℝ × ℝ)))
    (telem : String → ℝ → ℕ → TelemetryState →
      Except String (TelemetryOutput × TelemetryState)) :
    ∀ (l : List (ℕ × ℚ)) (acc : SimAcc),
      exceptIsOk (runLoopAux sats expectedAlt prop telem l acc) = true ↔
        ∀ p ∈ l, ∀ sn ∈ sats, exceptIsOk (prop sn p.2) = true := by
  intro l
  induction l with
  | nil => intro acc; simp [runLoopAux, exceptIsOk]
  | cons p rest ih =>
    intro acc
    cases hs : simStep sats expectedAlt prop telem p.1 p.2 acc with
    | error e =>
      have hfail := simStep_isOk_iff sats expectedAlt prop telem p.1 p.2 acc
      rw [hs] at hfail
      simp only [runLoopAux, hs]
      constructor
      · intro h
        exact absurd h (by simp [exceptIsOk])
      · intro hall
        exact absurd (hfail.mpr fun sn hsn => hall p (by simp) sn hsn)
          (by simp [exceptIsOk])
    | ok acc2 =>
      have hokk := simStep_isOk_iff sats expectedAlt prop telem p.1 p.2 acc
      rw [hs] at hokk
      simp only [exceptIsOk_ok, true_iff] at hokk
      simp only [runLoopAux, hs, List.forall_mem_cons, ih acc2]
      exact (and_iff_right hokk).symm

theorem run_simulation_loop_isOk_iff (sats : List String)
    (expectedAlt : String → ℚ)
    (prop : String → ℚ → Except String ((ℝ × ℝ × ℝ) × (ℝ × ℝ × ℝ)))
    (telem : String → ℝ → ℕ → TelemetryState →
      Except String (TelemetryOutput × TelemetryState)) (ticks : List ℚ) :
    exceptIsOk (run_simulation_loop sats expectedAlt prop telem ticks) = true
      ↔ ∀ t ∈ ticks, ∀ sn ∈ sats, exceptIsOk (prop sn t) = true := by
  unfold run_simulation_loop
  rw [runLoopAux_isOk_iff]
  constructor
  · intro h t ht sn hsn
    have hmem : t ∈ (ticks.enum.map Prod.snd) := by
      rw [List.enum_map_snd]
      exact ht
    obtain ⟨p, hp, hpt⟩ := List.mem_map.1 hmem
    exact hpt ▸ h p hp sn hsn
  · intro h p hp sn hsn
    have ht : p.2 ∈ ticks := by
      rw [← List.enum_map_snd ticks]
      exact List.mem_map_of_mem Prod.snd hp
    exact h p.2 ht sn hsn

/-- C3 (counterexample): a per-satellite per-step position-propagation
failure at a single tick aborts the whole run with an error, contradicting
"no step-local failure ever aborts the run". -/
theorem prop_failure_aborts_run :
    exceptIsOk (run_simulation_loop ["CRTS1"] (fun _ => 550)
      (fun _ _ => .error "boom")
      (fun _ _ _ st => .ok (⟨80, 20, 0, 0, 0, []⟩, st)) [0]) = false := rfl

/-- C3 (amended): during the stepped run, telemetry-generation failures at a
tick are caught: the step still returns normally, only the failing
satellite's record for that tick is skipped (its record list is unchanged),
and every satellite whose telemetry call succeeds gets exactly one new
record.  But position-propagation / drift-correction failures are re-raised:
the run completes without error exactly when every per-satellite position
computation at every tick succeeds, so a step-local propagation failure
aborts the whole run. -/
theorem step_failure_policy :
    (∀ (sats : List String) (expectedAlt : String → ℚ)
        (prop : String → ℚ → Except String ((ℝ × ℝ × ℝ) × (ℝ × ℝ × ℝ)))
        (telem : String → ℝ → ℕ → TelemetryState →
          Except String (TelemetryOutput × TelemetryState))
        (ticks : List ℚ),
      exceptIsOk (run_simulation_loop sats expectedAlt prop telem ticks) =
          true ↔
        ∀ t ∈ ticks, ∀ sn ∈ sats, exceptIsOk (prop sn t) = true) ∧
    (∀ (sats : List String) (expectedAlt : String → ℚ)
        (prop : String → ℚ → Except String ((ℝ × ℝ × ℝ) × (ℝ × ℝ × ℝ)))
        (telem : String → ℝ → ℕ → TelemetryState →
          Except String (TelemetryOutput × TelemetryState))
        (i : ℕ) (t : ℚ) (acc : SimAcc)
        (pv : String → (ℝ × ℝ × ℝ) × (ℝ × ℝ × ℝ)),
      sats.Nodup → (∀ sn ∈ sats, prop sn t = .ok (pv sn)) →
      ∃ acc2, simStep sats expectedAlt prop telem i t acc = .ok acc2 ∧
        (∀ s, s ∉ sats → acc2.simData s = acc.simData s) ∧
        (∀ s ∈ sats,
          (exceptIsOk (telem s
              (calculate_altitude (correctedPos (pv s).1 (expectedAlt s))) i
              (acc.tstates s)) = false →
            acc2.simData s = acc.simData s) ∧
          (exceptIsOk (telem s
              (calculate_altitude (correctedPos (pv s).1 (expectedAlt s))) i
              (acc.tstates s)) = true →
            (acc2.simData s).length = (acc.simData s).length + 1))) := by
  refine ⟨run_simulation_loop_isOk_iff, ?_⟩
  intro sats expectedAlt prop telem i t acc pv hnd hprop
  obtain ⟨acc2, hstep, hout, hin⟩ :=
    simStep_ok_spec sats expectedAlt prop telem i t acc pv hnd hprop
  refine ⟨acc2, hstep, hout, ?_⟩
  intro s hs
  have hdata := hin s hs
  constructor
  · intro hfail
    cases htl : telem s
        (calculate_altitude (correctedPos (pv s).1 (expectedAlt s))) i
        (acc.tstates s) with
    | error e =>
      rw [htl] at hdata
      simpa using hdata
    | ok outst =>
      rw [htl] at hfail
      simp [exceptIsOk] at hfail
  · intro hok
    cases htl : telem s
        (calculate_altitude (correctedPos (pv s).1 (expectedAlt s))) i
        (acc.tstates s) with
    | error e =>
      rw [htl] at hok
      simp [exceptIsOk] at hok
    | ok outst =>
      obtain ⟨out, st2⟩ := outst
      rw [htl] at hdata
      rw [hdata]
      simp

/-- C3 witness: the failure-policy theorem at a concrete two-satellite step
where every propagation call succeeds. -/
theorem step_failure_policy_witness :
    (["CRTS1", "BULLDOG"] : List String).Nodup ∧
    ∃ acc2, simStep ["CRTS1", "BULLDOG"] (fun _ => 550)
        (fun _ _ => .ok ((6921, 0, 0), (0, 0, 0)))
        (fun sn _ _ st =>
          if sn = "BULLDOG" then .error "telemetry failure"
          else .ok (⟨80, 20, 0, 0, 0, []⟩, st))
        0 0 initSimAcc = .ok acc2 :=
  ⟨by decide, by
    obtain ⟨acc2, hstep, -, -⟩ :=
      step_failure_policy.2 ["CRTS1", "BULLDOG"] (fun _ => 550)
        (fun _ _ => .ok ((6921, 0, 0), (0, 0, 0)))
        (fun sn _ _ st =>
          if sn = "BULLDOG" then .error "telemetry failure"
          else .ok (⟨80, 20, 0, 0, 0, []⟩, st))
        0 0 initSimAcc (fun _ => ((6921, 0, 0), (0, 0, 0))) (by decide)
        (fun sn _ => rfl)
    exact ⟨acc2, hstep⟩⟩

theorem correctedPos_altitude (pos : ℝ × ℝ × ℝ) (e : ℚ)
    (hpos : 0 < pos.1 ^ 2 + pos.2.1 ^ 2 + pos.2.2 ^ 2) (he : 0 ≤ e) :
    |calculate_altitude (correctedPos pos e) - ((e : ℚ) : ℝ)| ≤ 50 := by
  unfold correctedPos
  split_ifs with h
  · have hr : 0 < Real.sqrt (pos.1 ^ 2 + pos.2.1 ^ 2 + pos.2.2 ^ 2) :=
      Real.sqrt_pos.2 hpos
    have hR : ((EARTH_RADIUS_KM : ℚ) : ℝ) = 6371 := by
      norm_num [EARTH_RADIUS_KM]
    have he2 : (0 : ℝ) ≤ ((e : ℚ) : ℝ) := by exact_mod_cast he
    simp only [fix_altitude, calculate_altitude]
    rw [if_pos hr]
    have htr0 : 0 ≤ ((EARTH_RADIUS_KM : ℚ) : ℝ) + ((e : ℚ) : ℝ) := by
      rw [hR]
      linarith
    have hc0 : 0 ≤ (((EARTH_RADIUS_KM : ℚ) : ℝ) + ((e : ℚ) : ℝ)) /
        Real.sqrt (pos.1 ^ 2 + pos.2.1 ^ 2 + pos.2.2 ^ 2) :=
      div_nonneg htr0 (le_of_lt hr)
    have hsq : (pos.1 * ((((EARTH_RADIUS_KM : ℚ) : ℝ) + ((e : ℚ) : ℝ)) /
          Real.sqrt (pos.1 ^ 2 + pos.2.1 ^ 2 + pos.2.2 ^ 2))) ^ 2 +
        (pos.2.1 * ((((EARTH_RADIUS_KM : ℚ) : ℝ) + ((e : ℚ) : ℝ)) /
          Real.sqrt (pos.1 ^ 2 + pos.2.1 ^ 2 + pos.2.2 ^ 2))) ^ 2 +
        (pos.2.2 * ((((EARTH_RADIUS_KM : ℚ) : ℝ) + ((e : ℚ) : ℝ)) /
          Real.sqrt (pos.1 ^ 2 + pos.2.1 ^ 2 + pos.2.2 ^ 2))) ^ 2 =
        ((((EARTH_RADIUS_KM : ℚ) : ℝ) + ((e : ℚ) : ℝ)) /
          Real.sqrt (pos.1 ^ 2 + pos.2.1 ^ 2 + pos.2.2 ^ 2)) ^ 2 *
          (pos.1 ^ 2 + pos.2.1 ^ 2 + pos.2.2 ^ 2) := by
      ring
    rw [hsq, Real.sqrt_mul (sq_nonneg _), Real.sqrt_sq_eq_abs,
      abs_of_nonneg hc0, div_mul_cancel₀ _ (ne_of_gt hr)]
    simp
  · exact not_lt.1 h

theorem runLoopAux_records (sats : List String) (expectedAlt : String → ℚ)
    (prop : String → ℚ → Except String ((ℝ × ℝ × ℝ) × (ℝ × ℝ × ℝ)))
    (telem : String → ℝ → ℕ → TelemetryState →
      Except String (TelemetryOutput × TelemetryState))
    (pv : String → ℚ → (ℝ × ℝ × ℝ) × (ℝ × ℝ × ℝ))
    (hnd : sats.Nodup)
    (hprop : ∀ sn t, prop sn t = .ok (pv sn t))
    (hpos : ∀ sn t, 0 < (pv sn t).1.1 ^ 2 + (pv sn t).1.2.1 ^ 2 +
      (pv sn t).1.2.2 ^ 2)
    (he : ∀ sn, 0 ≤ expectedAlt sn)
    (htel : ∀ sn alt i st, exceptIsOk (telem sn alt i st) = true) :
    ∀ (l : List (ℕ × ℚ)) (acc : SimAcc),
      ∃ acc2, runLoopAux sats expectedAlt prop telem l acc = .ok acc2 ∧
        ∀ s ∈ sats,
          (acc2.simData s).length = (acc.simData s).length + l.length ∧
          ∀ rec ∈ acc2.simData s, rec ∈ acc.simData s ∨
            |rec.altitude_km - ((expectedAlt s : ℚ) : ℝ)| ≤ 50 := by
  intro l
  induction l with
  | nil =>
    intro acc
    exact ⟨acc, rfl, fun s _ => ⟨by simp, fun rec hrec => Or.inl hrec⟩⟩
  | cons p rest ih =>
    intro acc
    obtain ⟨acc1, hstep, -, hin⟩ := simStep_ok_spec sats expectedAlt prop
      telem p.1 p.2 acc (fun sn => pv sn p.2) hnd fun sn _ => hprop sn p.2
    obtain ⟨acc2, hrun, hdata⟩ := ih acc1
    refine ⟨acc2, ?_, ?_⟩
    · simp only [runLoopAux, hstep]
      exact hrun
    · intro s hs
      obtain ⟨hlen, hrec⟩ := hdata s hs
      have hd := hin s hs
      have hok := htel s
        (calculate_altitude (correctedPos (pv s p.2).1 (expectedAlt s))) p.1
        (acc.tstates s)
      obtain ⟨outst, houtst⟩ := (exceptIsOk_eq_true_iff _).1 hok
      obtain ⟨out, st2⟩ := outst
      rw [houtst] at hd
      constructor
      · rw [hlen, hd]
        simp only [List.length_append, List.length_cons, List.length_nil]
        omega
      · intro rec hrecmem
        rcases hrec rec hrecmem with hmem | hbound
        · rw [hd] at hmem
          rcases List.mem_append.1 hmem with hmem2 | hmem2
          · exact Or.inl hmem2
          · right
            have hreq : rec = buildSimRecord p.2
                (correctedPos (pv s p.2).1 (expectedAlt s)) (pv s p.2).2
                (collisionsAt (snapOf expectedAlt (fun sn => pv sn p.2) sats))
                s out := by
              simpa using hmem2
            rw [hreq]
            exact correctedPos_altitude _ _ (hpos s p.2) (he s)
        · exact Or.inr hbound

/-- C6: for a run with the two satellites CRTS1 and BULLDOG over a 2-hour
span at a 60 s step, in which no per-satellite per-step failure occurs
(every propagation call returns a position of positive radius and every
telemetry call succeeds), the run completes, each satellite's record
sequence has exactly floor(7200/60)+1 = 121 entries, and every entry's
altitude_km lies within 50 km of that satellite's configured target
altitude after drift correction. -/
theorem two_satellite_run_spec (expectedAlt : String → ℚ)
    (prop : String → ℚ → Except String ((ℝ × ℝ × ℝ) × (ℝ × ℝ × ℝ)))
    (telem : String → ℝ → ℕ → TelemetryState →
      Except String (TelemetryOutput × TelemetryState))
    (pv : String → ℚ → (ℝ × ℝ × ℝ) × (ℝ × ℝ × ℝ))
    (hprop : ∀ sn t, prop sn t = .ok (pv sn t))
    (hpos : ∀ sn t, 0 < (pv sn t).1.1 ^ 2 + (pv sn t).1.2.1 ^ 2 +
      (pv sn t).1.2.2 ^ 2)
    (he : ∀ sn, 0 ≤ expectedAlt sn)
    (htel : ∀ sn alt i st, exceptIsOk (telem sn alt i st) = true) :
    ∃ acc, run_simulation_loop ["CRTS1", "BULLDOG"] expectedAlt prop telem
        (build_time_list 7200 60) = .ok acc ∧
      ∀ sn ∈ (["CRTS1", "BULLDOG"] : List String),
        (acc.simData sn).length = 121 ∧
        ∀ rec ∈ acc.simData sn,
          |rec.altitude_km - ((expectedAlt sn : ℚ) : ℝ)| ≤ 50 := by
  have hnd : (["CRTS1", "BULLDOG"] : List String).Nodup := by decide
  obtain ⟨acc, hrun, hdata⟩ := runLoopAux_records ["CRTS1", "BULLDOG"]
    expectedAlt prop telem pv hnd hprop hpos he htel
    (build_time_list 7200 60).enum initSimAcc
  have hticks : (build_time_list 7200 60).length = 121 := by
    unfold build_time_list
    rw [List.length_map, List.length_range]
    have hq : (7200 : ℚ) / 60 = ((120 : ℕ) : ℚ) := by norm_num
    rw [hq, Int.floor_natCast]
    omega
  refine ⟨acc, hrun, ?_⟩
  intro sn hsn
  obtain ⟨hlen, hrec⟩ := hdata sn hsn
  constructor
  · rw [hlen]
    simp [initSimAcc, List.enum_length, hticks]
  · intro rec hrecm
    rcases hrec rec hrecm with hmem | hb
    · simp [initSimAcc] at hmem
    · exact hb

/-- C6 witness: the two-satellite run theorem with a constant propagator at
radius 6921 km and an always-succeeding telemetry model. -/
theorem two_satellite_run_spec_witness :
    ∃ acc, run_simulation_loop ["CRTS1", "BULLDOG"] (fun _ => 550)
        (fun _ _ => .ok ((6921, 0, 0), (0, 0, 0)))
        (fun _ _ _ st => .ok (⟨80, 20, 0, 0, 0, []⟩, st))
        (build_time_list 7200 60) = .ok acc ∧
      ∀ sn ∈ (["CRTS1", "BULLDOG"] : List String),
        (acc.simData sn).length = 121 ∧
        ∀ rec ∈ acc.simData sn,
          |rec.altitude_km - (((550 : ℚ) : ℚ) : ℝ)| ≤ 50 :=
  two_satellite_run_spec (fun _ => 550)
    (fun _ _ => .ok ((6921, 0, 0), (0, 0, 0)))
    (fun _ _ _ st => .ok (⟨80, 20, 0, 0, 0, []⟩, st))
    (fun _ _ => ((6921, 0, 0), (0, 0, 0)))
    (fun _ _ => rfl) (fun _ _ => by norm_num) (fun _ => by norm_num)
    (fun _ _ _ _ => rfl)

end LeosRO
